import Mathlib

set_option maxRecDepth 100000

/-
Verification development for the Auto-Docker repository (a VS Code
extension that detects a project's technology stack and generates Docker
configuration artifacts, with deterministic template fallbacks).

The definitions below are a shallow embedding of the TypeScript sources:
  * src/llmService.ts      — fallback generators, build-directory lookup,
                             response parsing (fenced-code-block extraction)
  * src/projectAnalyzer.ts — stack detection (detectProjectType)
  * src/langchain-integration.ts — project-category computation, retry
                             loop, post-decode validation

JavaScript strings are modelled as Lean `String`; optional (string |
undefined) values as `Option String`, with JavaScript truthiness of such a
value modelled by `strTruthy` (undefined and "" are falsy).  Regular
expression extraction in parseResponse is modelled character-exactly on
`List Char`: the anchored patterns used by the source are literal openings
(with an alternation for the untagged block and case-insensitivity for the
tagged ones) followed by a lazy capture up to the next "\n```".
-/

/-- Character-list prefix test (case sensitive). -/
def isPfxC : List Char → List Char → Bool
  | [], _ => true
  | _ :: _, [] => false
  | p :: ps, c :: cs => p == c && isPfxC ps cs

/-- Character-list infix test: does `p` occur somewhere inside `s`? -/
def isInfixOfC (p : List Char) : List Char → Bool
  | [] => isPfxC p []
  | c :: cs => isPfxC p (c :: cs) || isInfixOfC p cs

/-- Model of JavaScript `s.includes(pat)` for the patterns used by the source. -/
def strContains (s pat : String) : Bool := isInfixOfC pat.data s.data

/-- Model of JavaScript `s.startsWith(pat)`. -/
def strStartsWith (s pat : String) : Bool := isPfxC pat.data s.data

/-- Model of JavaScript `s.toLowerCase()` (ASCII, which is all the source compares). -/
def strToLower (s : String) : String := String.mk (s.data.map Char.toLower)

/-- JavaScript truthiness of a `string | undefined` value: `undefined` and `""` are falsy. -/
def strTruthy : Option String → Bool
  | none => false
  | some s => s != ""

/-- `o?.includes(pat)` on an optional string: `undefined` short-circuits to false. -/
def optContains (o : Option String) (pat : String) : Bool :=
  match o with
  | some s => strContains s pat
  | none => false

/-- ASCII whitespace, as trimmed by JavaScript `String.prototype.trim`. -/
def isJsSpace (c : Char) : Bool :=
  c == ' ' || c == '\t' || c == '\n' || c == '\r' || c == '\x0b' || c == '\x0c'

/-- Drop leading whitespace characters. -/
def trimLeadC : List Char → List Char
  | [] => []
  | c :: cs => if isJsSpace c then trimLeadC cs else c :: cs

/-- Model of JavaScript `.trim()`: drop whitespace from both ends. -/
def trimChars (s : List Char) : List Char :=
  (trimLeadC ((trimLeadC s).reverse)).reverse

/-- Character comparison used when matching a pattern: the tagged-block
regular expressions carry the `i` flag, modelled by comparing lowercased
characters; the untagged-block one is case sensitive. -/
def charMatch (ci : Bool) (c p : Char) : Bool :=
  if ci then c.toLower == p.toLower else c == p

/-- Strip a literal pattern `p` from the front of `s`, returning the rest. -/
def stripPfx (ci : Bool) : List Char → List Char → Option (List Char)
  | [], s => some s
  | _ :: _, [] => none
  | p :: ps, c :: cs => if charMatch ci c p then stripPfx ci ps cs else none

/-- The closing fence the lazy captures stop at: `"\n```"`. -/
def fenceClose : List Char := "\n```".data

/-- Lazy capture `([\s\S]*?)` followed by `\n\x60\x60\x60`: the shortest prefix
of `s` after which the closing fence occurs. -/
def takeUntilClose : List Char → Option (List Char)
  | [] => if isPfxC fenceClose [] then some [] else none
  | c :: cs =>
    if isPfxC fenceClose (c :: cs) then some []
    else (takeUntilClose cs).map (fun r => c :: r)

/-- Try to match one fenced block at the current position: one of the
alternative literal openings, then the lazy capture up to `"\n```"`.
The alternatives of each source pattern are mutually exclusive at any
position, so trying them in order matches the regex engine. -/
def blockMatchAt (ci : Bool) (opens : List (List Char)) (s : List Char) : Option (List Char) :=
  opens.findSome? (fun o =>
    match stripPfx ci o s with
    | some rest => takeUntilClose rest
    | none => none)

/-- Scan left to right for the first position where the block pattern
matches, like `String.prototype.match` with a non-global regex. -/
def scanFirst (ci : Bool) (opens : List (List Char)) : List Char → Option (List Char)
  | [] => blockMatchAt ci opens []
  | c :: cs =>
    match blockMatchAt ci opens (c :: cs) with
    | some r => some r
    | none => scanFirst ci opens cs

/-- Run one of parseResponse's block extractions: find the first match and
trim the captured content, as `match[1].trim()` does. -/
def extractBlock (ci : Bool) (opens : List (List Char)) (resp : String) : Option String :=
  (scanFirst ci opens resp.data).map (fun r => String.mk (trimChars r))

/- ===================== Data model (src/projectAnalyzer.ts) ===================== -/

/-- Slice of a Node package.json: names of the declared dependencies and
devDependencies (versions are irrelevant to every check in the source). -/
structure PackageJson where
  dependencies : List String
  devDependencies : List String
deriving DecidableEq

/-- The `packageInfo` record assembled by analyzePackageFiles: each known
manifest is present or absent. -/
structure Dependencies where
  packageJson : Option PackageJson
  requirementsTxt : Option String
  pomXml : Option String
  gemfile : Option String
  goMod : Option String
deriving DecidableEq

/-- The ProjectStructure interface (projectAnalyzer.ts), plus the
`hasEnvFile`/`envVars` fields that llmService.ts reads from it. -/
structure ProjectStructure where
  projectType : String
  frontend : Option String
  backend : Option String
  database : Option String
  files : List String
  dependencies : Dependencies
  hasMultiStage : Bool
  description : String
  hasEnvFile : Bool
  envVars : List String
deriving DecidableEq

/-- The DockerFiles interface (llmService.ts): nginxConf is optional. -/
structure DockerFiles where
  dockerfile : String
  dockerCompose : String
  dockerIgnore : String
  nginxConf : Option String
deriving DecidableEq

/-- `deps.name` truthiness on the merged `{...dependencies, ...devDependencies}`
object: the name is declared in either list. -/
def depHas (pkg : PackageJson) (name : String) : Bool :=
  pkg.dependencies.contains name || pkg.devDependencies.contains name

/- ===================== llmService.ts: build directory and fallbacks ===================== -/

/-- getBuildDirectory (llmService.ts lines 167-190). -/
def getBuildDirectory (ps : ProjectStructure) : String :=
  if optContains ps.frontend "vite" then "dist"
  else if ps.frontend == some "react" then "build"
  else if ps.frontend == some "angular" then "dist"
  else if ps.frontend == some "vue" then "dist"
  else if ps.frontend == some "nextjs" then ".next"
  else "dist"

/-- generateFallbackDockerfile (llmService.ts lines 251-370), template
strings reproduced byte for byte. -/
def generateFallbackDockerfile (ps : ProjectStructure) : String :=
  match ps.dependencies.packageJson with
  | some pkg =>
    if (depHas pkg "react") || strTruthy ps.frontend then
      "FROM node:18-alpine AS build\nWORKDIR /app\nCOPY package*.json ./\nRUN npm ci\nCOPY . .\nRUN npm run build\n\nFROM nginx:alpine\nCOPY --from=build /app/" ++ getBuildDirectory ps ++ " /usr/share/nginx/html\nEXPOSE 80\nCMD [\"nginx\", \"-g\", \"daemon off;\"]"
    else
      "FROM node:18-alpine\nWORKDIR /app\nCOPY package*.json ./\nRUN npm ci --only=production\nCOPY . .\nEXPOSE 3000\nCMD [\"npm\", \"start\"]"
  | none =>
    match ps.dependencies.requirementsTxt with
    | some reqs =>
      let requirements := strToLower reqs
      if strContains requirements "flask" then
        "FROM python:3.11-slim\n\nWORKDIR /app\n\n# Install system dependencies\nRUN apt-get update && apt-get install -y \\\n    gcc \\\n    && rm -rf /var/lib/apt/lists/*\n\n# Copy requirements and install Python dependencies\nCOPY requirements.txt .\nRUN pip install --no-cache-dir -r requirements.txt \\\n    && pip install --no-cache-dir gunicorn\n\n# Copy application code\nCOPY . .\n\n# Create non-root user\nRUN useradd --create-home --shell /bin/bash appuser \\\n    && chown -R appuser:appuser /app\nUSER appuser\n\nEXPOSE 5000\n\n# Use gunicorn for production\nCMD [\"gunicorn\", \"--bind\", \"0.0.0.0:5000\", \"--workers\", \"4\", \"app:app\"]"
      else if strContains requirements "django" then
        "FROM python:3.11-slim\n\nWORKDIR /app\n\n# Install system dependencies\nRUN apt-get update && apt-get install -y \\\n    gcc \\\n    postgresql-client \\\n    && rm -rf /var/lib/apt/lists/*\n\n# Copy requirements and install dependencies\nCOPY requirements.txt .\nRUN pip install --no-cache-dir -r requirements.txt \\\n    && pip install --no-cache-dir gunicorn\n\n# Copy application code\nCOPY . .\n\n# Run migrations and collect static files\nRUN python manage.py collectstatic --noinput || true\n\nEXPOSE 8000\n\nCMD [\"gunicorn\", \"--bind\", \"0.0.0.0:8000\", \"--workers\", \"4\", \"wsgi:application\"]"
      else if strContains requirements "fastapi" then
        "FROM python:3.11-slim\n\nWORKDIR /app\n\n# Copy requirements and install dependencies\nCOPY requirements.txt .\nRUN pip install --no-cache-dir -r requirements.txt \\\n    && pip install --no-cache-dir uvicorn[standard]\n\n# Copy application code\nCOPY . .\n\nEXPOSE 8000\n\nCMD [\"uvicorn\", \"main:app\", \"--host\", \"0.0.0.0\", \"--port\", \"8000\"]"
      else
        "FROM python:3.11-slim\nWORKDIR /app\nCOPY requirements.txt .\nRUN pip install --no-cache-dir -r requirements.txt\nCOPY . .\nEXPOSE 8000\nCMD [\"python\", \"app.py\"]"
    | none =>
      "FROM alpine:latest\nWORKDIR /app\nCOPY . .\nEXPOSE 8080\nCMD [\"sh\"]"

/-- getDatabaseImage (llmService.ts lines 444-451). -/
def getDatabaseImage (database : String) : String :=
  if database == "postgresql" then "postgres:15-alpine"
  else if database == "mysql" then "mysql:8.0"
  else if database == "mongodb" then "mongo:6.0"
  else "postgres:15-alpine"

/-- The appPort / useNginxProxy pair computed at the top of
generateFallbackCompose (llmService.ts lines 373-384). -/
def composePortProxy (ps : ProjectStructure) : String × Bool :=
  if ps.frontend == some "react" || optContains ps.frontend "vite" then ("3000", true)
  else if ps.backend == some "flask" then ("5000", false)
  else if ps.backend == some "django" || ps.backend == some "fastapi" then ("8000", false)
  else ("3000", false)

/-- The proxy-branch compose template (llmService.ts lines 388-419), with
each interpolation written as explicit concatenation. -/
def composeProxy (appPort : String) (hasEnv : Bool) (db : Option String) : String :=
  "services:\n  app:\n    build: .\n    expose:\n      - \"" ++ appPort ++ "\"" ++
  (if hasEnv then "\n    env_file:\n      - .env" else "") ++
  (if strTruthy db then "\n    depends_on:\n      - " ++ db.getD "" else "") ++
  "\n\n  nginx:\n    image: nginx:alpine\n    ports:\n      - \"80:80\"\n    volumes:\n      - ./nginx.conf:/etc/nginx/conf.d/default.conf:ro\n    depends_on:\n      - app" ++
  (if strTruthy db then
    "\n\n  " ++ db.getD "" ++ ":\n    image: " ++ getDatabaseImage (db.getD "") ++
    "\n    environment:\n      POSTGRES_DB: app\n      POSTGRES_USER: user\n      POSTGRES_PASSWORD: pass\n    volumes:\n      - db:/var/lib/postgresql/data"
   else "") ++
  (if strTruthy db then "\n\nvolumes:\n  db:" else "")

/-- The non-proxy compose template (llmService.ts lines 422-440); note the
two trailing spaces after `user` reproduced from the source. -/
def composePlain (appPort : String) (hasEnv : Bool) (db : Option String) : String :=
  "services:\n  app:\n    build: .\n    ports:\n      - \"" ++ appPort ++ ":" ++ appPort ++ "\"" ++
  (if hasEnv then "\n    env_file:\n      - .env" else "") ++
  (if strTruthy db then "\n    depends_on:\n      - " ++ db.getD "" else "") ++
  (if strTruthy db then
    "\n  " ++ db.getD "" ++ ":\n    image: " ++ getDatabaseImage (db.getD "") ++
    "\n    environment:\n      POSTGRES_DB: app\n      POSTGRES_USER: user  \n      POSTGRES_PASSWORD: pass\n    volumes:\n      - db:/var/lib/postgresql/data"
   else "") ++
  (if strTruthy db then "\nvolumes:\n  db:" else "")

/-- generateFallbackCompose (llmService.ts lines 372-442). -/
def generateFallbackCompose (ps : ProjectStructure) : String :=
  if (composePortProxy ps).2 then
    composeProxy (composePortProxy ps).1 ps.hasEnvFile ps.database
  else
    composePlain (composePortProxy ps).1 ps.hasEnvFile ps.database

/-- generateFallbackDockerignore (llmService.ts lines 453-467). -/
def generateFallbackDockerignore : String :=
  "node_modules\n.git\n*.log\n.vscode\n.DS_Store\n__pycache__\n*.pyc\nvenv\n.pytest_cache\ncoverage\ndist\nbuild\nREADME.md"

/-- generateFallbackNginx (llmService.ts lines 469-500). -/
def generateFallbackNginx : String :=
  "server \x7b\n    listen 80;\n    server_name localhost;\n\n    # For reverse proxy to Node.js/React dev server on port 3000\n    location / \x7b\n        proxy_pass http://app:3000;\n        proxy_http_version 1.1;\n        proxy_set_header Upgrade $http_upgrade;\n        proxy_set_header Connection \x27upgrade\x27;\n        proxy_set_header Host $host;\n        proxy_set_header X-Real-IP $remote_addr;\n        proxy_set_header X-Forwarded-For $proxy_add_x_forwarded_for;\n        proxy_set_header X-Forwarded-Proto $scheme;\n        proxy_cache_bypass $http_upgrade;\n    \x7d\n\n    # For static assets (if using production build)\n    location /static/ \x7b\n        alias /usr/share/nginx/html/static/;\n        expires 1y;\n        add_header Cache-Control \"public, immutable\";\n    \x7d\n\n    # Gzip compression\n    gzip on;\n    gzip_vary on;\n    gzip_min_length 1024;\n    gzip_types text/plain text/css text/xml text/javascript application/javascript application/json application/xml+rss;\n\x7d"

/- ===================== llmService.ts: parseResponse ===================== -/

/-- The `/\x60\x60\x60dockerfile\n([\s\S]*?)\n\x60\x60\x60/i` extraction. -/
def extractDockerfileBlock (resp : String) : Option String :=
  extractBlock true ["```dockerfile\n".data] resp

/-- The `/\x60\x60\x60ya?ml\n([\s\S]*?)\n\x60\x60\x60/i` extraction. -/
def extractComposeBlock (resp : String) : Option String :=
  extractBlock true ["```yaml\n".data, "```yml\n".data] resp

/-- The `/\x60\x60\x60(?:dockerignore|text)?\n([\s\S]*?)\n\x60\x60\x60/` extraction
(case sensitive; the optional tag gives three alternative openings). -/
def extractIgnoreBlock (resp : String) : Option String :=
  extractBlock false ["```dockerignore\n".data, "```text\n".data, "```\n".data] resp

/-- The `/\x60\x60\x60nginx\n([\s\S]*?)\n\x60\x60\x60/i` extraction. -/
def extractNginxBlock (resp : String) : Option String :=
  extractBlock true ["```nginx\n".data] resp

/-- Truthiness of the optional nginxConf slot (undefined or "" are falsy). -/
def optFalsy : Option String → Bool
  | none => true
  | some s => s == ""

/-- fallbackExtraction (llmService.ts lines 232-249): fill each falsy slot
from the corresponding template generator; nginx only when a frontend is
present. -/
def fallbackExtraction (r : DockerFiles) (ps : ProjectStructure) : DockerFiles :=
  let r1 := if r.dockerfile == "" then { r with dockerfile := generateFallbackDockerfile ps } else r
  let r2 := if r1.dockerCompose == "" then { r1 with dockerCompose := generateFallbackCompose ps } else r1
  let r3 := if r2.dockerIgnore == "" then { r2 with dockerIgnore := generateFallbackDockerignore } else r2
  if optFalsy r3.nginxConf && strTruthy ps.frontend then
    { r3 with nginxConf := some generateFallbackNginx }
  else r3

/-- parseResponse (llmService.ts lines 192-230): run the four extractions,
then fall back only when dockerfile, compose or ignore is still empty. -/
def parseResponse (resp : String) (ps : ProjectStructure) : DockerFiles :=
  let r : DockerFiles :=
    { dockerfile := (extractDockerfileBlock resp).getD ""
      dockerCompose := (extractComposeBlock resp).getD ""
      dockerIgnore := (extractIgnoreBlock resp).getD ""
      nginxConf := extractNginxBlock resp }
  if r.dockerfile == "" || r.dockerCompose == "" || r.dockerIgnore == "" then
    fallbackExtraction r ps
  else r

/- ===================== projectAnalyzer.ts: detectProjectType ===================== -/

/-- The mutable `result` object of detectProjectType. -/
structure DetectResult where
  type : String
  frontend : Option String
  backend : Option String
  database : Option String
deriving DecidableEq

/-- The frontend-frameworks chain of detectProjectType (projectAnalyzer.ts
lines 407-420): a meta-framework additionally forces the type. -/
def nodeFrontendStage (pkg : PackageJson) (r : DetectResult) : DetectResult :=
  if depHas pkg "react" || depHas pkg "@types/react" then { r with frontend := some "react" }
  else if depHas pkg "vue" || depHas pkg "@vue/cli" then { r with frontend := some "vue" }
  else if depHas pkg "@angular/core" then { r with frontend := some "angular" }
  else if depHas pkg "next" then { r with frontend := some "nextjs", type := "fullstack" }
  else if depHas pkg "nuxt" then { r with frontend := some "nuxt", type := "fullstack" }
  else r

/-- The backend-frameworks chain (projectAnalyzer.ts lines 423-429). -/
def nodeBackendStage (pkg : PackageJson) (r : DetectResult) : DetectResult :=
  if depHas pkg "express" then { r with backend := some "express" }
  else if depHas pkg "fastify" then { r with backend := some "fastify" }
  else if depHas pkg "nestjs" || depHas pkg "@nestjs/core" then { r with backend := some "nestjs" }
  else r

/-- The database-detection chain (projectAnalyzer.ts lines 432-438). -/
def nodeDbStage (pkg : PackageJson) (r : DetectResult) : DetectResult :=
  if depHas pkg "mongoose" || depHas pkg "mongodb" then { r with database := some "mongodb" }
  else if depHas pkg "pg" || depHas pkg "postgresql" then { r with database := some "postgresql" }
  else if depHas pkg "mysql" || depHas pkg "mysql2" then { r with database := some "mysql" }
  else r

/-- The package.json section of detectProjectType (projectAnalyzer.ts
lines 403-439): the three chains run in source order over the result. -/
def detectNodeStage (p : Dependencies) : DetectResult :=
  let r0 : DetectResult := { type := "unknown", frontend := none, backend := none, database := none }
  match p.packageJson with
  | none => r0
  | some pkg => nodeDbStage pkg (nodeBackendStage pkg (nodeFrontendStage pkg r0))

/-- The requirements.txt section (projectAnalyzer.ts lines 442-454): a
Python framework overwrites the backend and forces `type = "backend"`. -/
def detectPythonStage (p : Dependencies) (r : DetectResult) : DetectResult :=
  match p.requirementsTxt with
  | none => r
  | some reqTxt =>
    let requirements := strToLower reqTxt
    if strContains requirements "django" then { r with backend := some "django", type := "backend" }
    else if strContains requirements "flask" then { r with backend := some "flask", type := "backend" }
    else if strContains requirements "fastapi" then { r with backend := some "fastapi", type := "backend" }
    else r

/-- The pom.xml section (projectAnalyzer.ts lines 457-463). -/
def detectJavaStage (p : Dependencies) (r : DetectResult) : DetectResult :=
  match p.pomXml with
  | none => r
  | some pomTxt =>
    let pom := strToLower pomTxt
    if strContains pom "spring-boot" then { r with backend := some "spring-boot", type := "backend" }
    else r

/-- The go.mod section (projectAnalyzer.ts lines 466-469). -/
def detectGoStage (p : Dependencies) (r : DetectResult) : DetectResult :=
  match p.goMod with
  | none => r
  | some _ => { r with backend := some "go", type := "backend" }

/-- The final classification block (projectAnalyzer.ts lines 472-495),
run only when no earlier section already fixed the type. -/
def detectFinalStage (files : List String) (r : DetectResult) : DetectResult :=
  if r.type == "unknown" then
    if strTruthy r.frontend && strTruthy r.backend then { r with type := "fullstack" }
    else if strTruthy r.frontend then { r with type := "frontend" }
    else if strTruthy r.backend then { r with type := "backend" }
    else if (files.any (fun f => strStartsWith f "public/" || strStartsWith f "static/")) &&
            (files.any (fun f => strStartsWith f "src/")) then { r with type := "frontend" }
    else if files.any (fun f =>
        strContains f "server" || strContains f "api" || strContains f "routes") then
      { r with type := "backend" }
    else { r with type := "static" }
  else r

/-- detectProjectType (projectAnalyzer.ts lines 394-498): the sections run
in source order over the shared result record. -/
def detectProjectType (files : List String) (p : Dependencies) : DetectResult :=
  detectFinalStage files (detectGoStage p (detectJavaStage p (detectPythonStage p (detectNodeStage p))))

/- ===================== langchain-integration.ts ===================== -/

/-- Frontend/backend slice of the StackDetection input. -/
structure FrameworkDetection where
  framework : String
  port : Option Nat
deriving DecidableEq

/-- Database slice of the StackDetection input. -/
structure DatabaseDetection where
  dbType : Option String
deriving DecidableEq

/-- The StackDetection input to LangChainDockerGenerator.generateDockerFiles. -/
structure StackDetection where
  frontend : FrameworkDetection
  backend : FrameworkDetection
  database : DatabaseDetection
  hasDockerfile : Bool
  hasDockerCompose : Bool
deriving DecidableEq

/-- `detection.frontend.framework !== 'unknown'` (langchain-integration.ts line 143). -/
def lcHasFrontend (d : StackDetection) : Bool := d.frontend.framework != "unknown"

/-- `detection.backend.framework !== 'unknown'` (langchain-integration.ts line 144). -/
def lcHasBackend (d : StackDetection) : Bool := d.backend.framework != "unknown"

/-- The projectType computation (langchain-integration.ts lines 146-155). -/
def lcProjectType (d : StackDetection) : String :=
  if lcHasFrontend d && lcHasBackend d then "fullstack"
  else if lcHasFrontend d && !(lcHasBackend d) then "frontend-only"
  else if !(lcHasFrontend d) && lcHasBackend d then "backend-only"
  else "api-only"

/-- The JSON object decoded from a structured-mode response: the five
mandated keys. -/
structure LCResult where
  dockerfile : String
  docker_compose : String
  nginx_conf : String
  dockerignore : String
  notes : String
deriving DecidableEq

/-- The GeneratedFiles value returned to the caller: (path, content)
pairs, recommendations, optional warnings. -/
structure GeneratedFiles where
  files : List (String × String)
  recommendations : List String
  warnings : Option (List String)
deriving DecidableEq

/-- The post-decode section of generateDockerFiles (langchain-integration.ts
lines 212-247): build the files list from the decoded slots verbatim, then
run the three structural sanity checks, each appending a warning on
failure; no slot is replaced. -/
def buildGeneratedFiles (result : LCResult) : GeneratedFiles :=
  let files : List (String × String) :=
    [("Dockerfile", result.dockerfile),
     ("docker-compose.yml", result.docker_compose),
     ("nginx.conf", result.nginx_conf),
     (".dockerignore", result.dockerignore),
     ("README-Docker.md", result.notes)]
  let recommendations : List String :=
    ["✅ LangChain-powered generation completed",
     "🚀 Production-ready configurations generated",
     "📋 Quick start: docker-compose up -d",
     "🔧 Customize environment variables in .env file",
     "📊 Monitor with: docker-compose logs -f",
     "🔒 All configurations include security best practices"]
  let warnings : List String :=
    (if strContains result.dockerfile "FROM" then []
     else ["Dockerfile may be incomplete - please review"]) ++
    (if strContains result.docker_compose "services:" then []
     else ["Docker Compose may be incomplete - please review"]) ++
    (if strContains result.nginx_conf "server \x7b" then []
     else ["Nginx configuration may be incomplete - please review"])
  { files := files
    recommendations := recommendations
    warnings := if warnings.length > 0 then some warnings else none }

/-- One run of the retry loop: how many chain invocations were made, which
delays (in milliseconds) were awaited between them, and the final outcome. -/
structure RetryTrace where
  attemptsMade : Nat
  delays : List Nat
  outcome : Except String String

/-- The body of the structured-mode retry loop (langchain-integration.ts
lines 186-210).  `respond k` is the combined outcome of the (k+1)-th chain
invocation plus JSON extraction (an error covers both a provider failure
and "No valid JSON found in response").  `attempts` counts failures so
far; the fuel equals `maxAttempts - attempts`, mirroring the while guard. -/
def retryGo (respond : Nat → Except String String) :
    Nat → Nat → List Nat → RetryTrace
  | 0, attempts, delays =>
    { attemptsMade := attempts, delays := delays.reverse, outcome := Except.error "" }
  | fuel + 1, attempts, delays =>
    match respond attempts with
    | Except.ok r =>
      { attemptsMade := attempts + 1, delays := delays.reverse, outcome := Except.ok r }
    | Except.error e =>
      if attempts + 1 == 3 then
        { attemptsMade := attempts + 1, delays := delays.reverse, outcome := Except.error e }
      else
        retryGo respond fuel (attempts + 1) (1000 * (attempts + 1) :: delays)

/-- The retry loop entered with `attempts = 0` and `maxAttempts = 3`. -/
def retryLoop (respond : Nat → Except String String) : RetryTrace :=
  retryGo respond 3 0 []

/- ===================== Helper lemmas ===================== -/

theorem strData_append (a b : String) : (a ++ b).data = a.data ++ b.data := rfl

theorem isPfxC_append (p a b : List Char) (h : isPfxC p a = true) :
    isPfxC p (a ++ b) = true := by
  induction p generalizing a with
  | nil => simp [isPfxC]
  | cons x xs ih =>
    cases a with
    | nil => simp [isPfxC] at h
    | cons y ys =>
      simp only [isPfxC, Bool.and_eq_true] at h ⊢
      exact ⟨h.1, ih ys h.2⟩

theorem isPfxC_isInfixOfC (p s : List Char) (h : isPfxC p s = true) :
    isInfixOfC p s = true := by
  cases s with
  | nil => simpa [isInfixOfC] using h
  | cons c cs => simp [isInfixOfC, h]

theorem isInfixOfC_append_left (p a b : List Char) (h : isInfixOfC p a = true) :
    isInfixOfC p (a ++ b) = true := by
  induction a with
  | nil =>
    simp only [isInfixOfC] at h
    cases p with
    | nil =>
      apply isPfxC_isInfixOfC
      simp [isPfxC]
    | cons x xs => simp [isPfxC] at h
  | cons c cs ih =>
    simp only [isInfixOfC, Bool.or_eq_true] at h
    rcases h with h | h
    · have := isPfxC_append p (c :: cs) b h
      simp only [List.cons_append] at this ⊢
      simp [isInfixOfC, this]
    · simp only [List.cons_append, isInfixOfC, Bool.or_eq_true]
      exact Or.inr (ih h)

theorem isInfixOfC_append_right (p a b : List Char) (h : isInfixOfC p b = true) :
    isInfixOfC p (a ++ b) = true := by
  induction a with
  | nil => simpa using h
  | cons c cs ih =>
    simp only [List.cons_append, isInfixOfC, Bool.or_eq_true]
    exact Or.inr ih

theorem strContains_append_left (a b p : String) (h : strContains a p = true) :
    strContains (a ++ b) p = true := by
  unfold strContains at h ⊢
  rw [strData_append]
  exact isInfixOfC_append_left _ _ _ h

theorem strContains_append_right (a b p : String) (h : strContains b p = true) :
    strContains (a ++ b) p = true := by
  unfold strContains at h ⊢
  rw [strData_append]
  exact isInfixOfC_append_right _ _ _ h

theorem strContains_ne_empty (s p : String) (h : strContains s p = true) (hp : p ≠ "") :
    s ≠ "" := by
  intro hs
  subst hs
  have hd : p.data ≠ [] := by
    intro h0
    exact hp (by cases p; simp_all)
  unfold strContains isInfixOfC at h
  cases hq : p.data with
  | nil => exact hd hq
  | cons c cs => rw [hq] at h; simp [isPfxC] at h

theorem composePortProxy_cases (ps : ProjectStructure) :
    (composePortProxy ps).1 = "3000" ∨ (composePortProxy ps).1 = "5000" ∨
      (composePortProxy ps).1 = "8000" := by
  unfold composePortProxy
  split_ifs <;> simp

/- ===================== Claim theorems ===================== -/

/-- C1: for every project structure, each fallback generator returns a
non-empty string passing its slot's structural sanity check: the fallback
Dockerfile contains FROM on every branch, the fallback compose contains a
services: section on both branches, the fallback nginx config contains a
server block, and the fallback dockerignore is non-empty. -/
theorem C1_fallback_generators_sane (ps : ProjectStructure) :
    strContains (generateFallbackDockerfile ps) "FROM" = true ∧
    generateFallbackDockerfile ps ≠ "" ∧
    strContains (generateFallbackCompose ps) "services:" = true ∧
    generateFallbackCompose ps ≠ "" ∧
    strContains generateFallbackNginx "server \x7b" = true ∧
    generateFallbackNginx ≠ "" ∧
    generateFallbackDockerignore ≠ "" := by
  have hdf : strContains (generateFallbackDockerfile ps) "FROM" = true := by
    unfold generateFallbackDockerfile
    cases hpk : ps.dependencies.packageJson with
    | some pkg =>
      dsimp only
      split
      · apply strContains_append_left
        apply strContains_append_left
        decide
      · decide
    | none =>
      dsimp only
      cases hrq : ps.dependencies.requirementsTxt with
      | some reqs =>
        dsimp only
        split
        · decide
        · split
          · decide
          · split <;> decide
      | none => dsimp only; decide
  have hcp : strContains (generateFallbackCompose ps) "services:" = true := by
    unfold generateFallbackCompose
    split
    · unfold composeProxy
      repeat apply strContains_append_left
      decide
    · unfold composePlain
      repeat apply strContains_append_left
      decide
  refine ⟨hdf, strContains_ne_empty _ _ hdf (by decide), hcp,
    strContains_ne_empty _ _ hcp (by decide), by decide, by decide, by decide⟩

/-- C6: the build-output-directory lookup follows the fixed per-framework
table: a frontend containing "vite" yields dist; react yields build;
angular and vue yield dist; nextjs yields .next; anything else defaults to
dist. -/
theorem C6_build_directory_table (ps : ProjectStructure) :
    (∀ f, ps.frontend = some f → strContains f "vite" = true →
      getBuildDirectory ps = "dist") ∧
    (ps.frontend = some "react" → getBuildDirectory ps = "build") ∧
    (ps.frontend = some "angular" → getBuildDirectory ps = "dist") ∧
    (ps.frontend = some "vue" → getBuildDirectory ps = "dist") ∧
    (ps.frontend = some "nextjs" → getBuildDirectory ps = ".next") ∧
    (∀ f, ps.frontend = some f → strContains f "vite" = false →
      f ≠ "react" → f ≠ "angular" → f ≠ "vue" → f ≠ "nextjs" →
      getBuildDirectory ps = "dist") ∧
    (ps.frontend = none → getBuildDirectory ps = "dist") := by
  refine ⟨?_, ?_, ?_, ?_, ?_, ?_, ?_⟩
  · intro f hf hv
    simp [getBuildDirectory, optContains, hf, hv]
  · intro hf
    simp [getBuildDirectory, optContains, hf]
    decide
  · intro hf
    simp [getBuildDirectory, optContains, hf]
  · intro hf
    simp [getBuildDirectory, optContains, hf]
  · intro hf
    simp [getBuildDirectory, optContains, hf]
    decide
  · intro f hf hv h1 h2 h3 h4
    simp [getBuildDirectory, optContains, hf, hv, h1, h2, h3, h4]
  · intro hf
    simp [getBuildDirectory, optContains, hf]

/-- C6 witness: the table evaluated at a concrete react project. -/
theorem C6_build_directory_witness :
    getBuildDirectory
      { projectType := "frontend", frontend := some "react", backend := none,
        database := none, files := [],
        dependencies :=
          { packageJson := none, requirementsTxt := none, pomXml := none,
            gemfile := none, goMod := none },
        hasMultiStage := true, description := "", hasEnvFile := false,
        envVars := [] } = "build" :=
  (C6_build_directory_table _).2.1 rfl

/-- Fixture for the C7 witness: a flask backend with a postgresql database. -/
def psC7 : ProjectStructure :=
  { projectType := "backend", frontend := none, backend := some "flask",
    database := some "postgresql", files := [],
    dependencies :=
      { packageJson := none, requirementsTxt := some "flask", pomXml := none,
        gemfile := none, goMod := none },
    hasMultiStage := false, description := "", hasEnvFile := false, envVars := [] }

/-- C7: a descriptor with database = postgresql yields a fallback compose
containing the postgresql service block, the named db volume and an
app-to-database depends_on edge; a descriptor with no database yields a
compose with no database service block, no named db volume and no
depends_on edge onto any database service. -/
theorem C7_compose_database_emission :
    (∀ ps : ProjectStructure, ps.database = some "postgresql" →
      strContains (generateFallbackCompose ps) "\n  postgresql:" = true ∧
      strContains (generateFallbackCompose ps) "volumes:\n  db:" = true ∧
      strContains (generateFallbackCompose ps) "depends_on:\n      - postgresql" = true) ∧
    (∀ ps : ProjectStructure, ps.database = none →
      strContains (generateFallbackCompose ps) "postgresql:" = false ∧
      strContains (generateFallbackCompose ps) "mysql:" = false ∧
      strContains (generateFallbackCompose ps) "mongodb:" = false ∧
      strContains (generateFallbackCompose ps) "volumes:\n  db:" = false ∧
      strContains (generateFallbackCompose ps) "- postgresql" = false ∧
      strContains (generateFallbackCompose ps) "- mysql" = false ∧
      strContains (generateFallbackCompose ps) "- mongodb" = false) := by
  constructor
  · intro ps h
    unfold generateFallbackCompose
    rcases composePortProxy_cases ps with hp | hp | hp <;>
      cases hb : (composePortProxy ps).2 <;>
      cases he : ps.hasEnvFile <;>
      simp only [hp, h, hb, he] <;> decide
  · intro ps h
    unfold generateFallbackCompose
    rcases composePortProxy_cases ps with hp | hp | hp <;>
      cases hb : (composePortProxy ps).2 <;>
      cases he : ps.hasEnvFile <;>
      simp only [hp, h, hb, he] <;> decide

/-- C7 witness: the positive half evaluated at the concrete flask+postgresql
descriptor. -/
theorem C7_compose_database_witness :
    strContains (generateFallbackCompose psC7) "\n  postgresql:" = true ∧
    strContains (generateFallbackCompose psC7) "volumes:\n  db:" = true ∧
    strContains (generateFallbackCompose psC7) "depends_on:\n      - postgresql" = true :=
  C7_compose_database_emission.1 psC7 rfl

/-- Fixture for the C10 witness: a plain backend with a mysql database. -/
def psC10 : ProjectStructure :=
  { projectType := "backend", frontend := none, backend := none,
    database := some "mysql", files := [],
    dependencies :=
      { packageJson := none, requirementsTxt := none, pomXml := none,
        gemfile := none, goMod := none },
    hasMultiStage := false, description := "", hasEnvFile := false, envVars := [] }

/-- C10: whichever of the three databases is detected, the fallback compose
emits the database service's placeholder credentials with PostgreSQL-style
environment keys. -/
theorem C10_postgres_env_keys (ps : ProjectStructure) (d : String)
    (hdb : ps.database = some d)
    (hmem : d = "postgresql" ∨ d = "mysql" ∨ d = "mongodb") :
    strContains (generateFallbackCompose ps) "POSTGRES_DB" = true ∧
    strContains (generateFallbackCompose ps) "POSTGRES_USER" = true ∧
    strContains (generateFallbackCompose ps) "POSTGRES_PASSWORD" = true := by
  unfold generateFallbackCompose
  rcases hmem with rfl | rfl | rfl <;>
    rcases composePortProxy_cases ps with hp | hp | hp <;>
    cases hb : (composePortProxy ps).2 <;>
    cases he : ps.hasEnvFile <;>
    simp only [hp, hdb, hb, he] <;> decide

/-- C10 witness: the keys are present for the concrete mysql descriptor. -/
theorem C10_postgres_env_keys_witness :
    strContains (generateFallbackCompose psC10) "POSTGRES_DB" = true ∧
    strContains (generateFallbackCompose psC10) "POSTGRES_USER" = true ∧
    strContains (generateFallbackCompose psC10) "POSTGRES_PASSWORD" = true :=
  C10_postgres_env_keys psC10 "mysql" rfl (Or.inr (Or.inl rfl))

/-- C5: in structured-chain mode, when every attempt fails, the loop makes
exactly 3 attempts, waits attempt × 1000 ms after each failed attempt that
is followed by a retry (so the waited delays are [1000, 2000], strictly
increasing), and surfaces the error of the last attempt. -/
theorem C5_retry_exhaustion (respond : Nat → Except String String) (e : Nat → String)
    (h : ∀ k, k < 3 → respond k = Except.error (e k)) :
    (retryLoop respond).attemptsMade = 3 ∧
    (retryLoop respond).delays = [1000, 2000] ∧
    List.Chain' (fun a b => a < b) (retryLoop respond).delays ∧
    (retryLoop respond).outcome = Except.error (e 2) := by
  have h0 := h 0 (by norm_num)
  have h1 := h 1 (by norm_num)
  have h2 := h 2 (by norm_num)
  unfold retryLoop
  simp [retryGo, h0, h1, h2]

/-- C5 witness: the retry loop run against a provider that always fails. -/
theorem C5_retry_witness :
    (retryLoop (fun _ => Except.error "boom")).attemptsMade = 3 ∧
    (retryLoop (fun _ => Except.error "boom")).delays = [1000, 2000] ∧
    List.Chain' (fun a b => a < b) (retryLoop (fun _ => Except.error "boom")).delays ∧
    (retryLoop (fun _ => Except.error "boom")).outcome = Except.error "boom" :=
  C5_retry_exhaustion (fun _ => Except.error "boom") (fun _ => "boom") (fun _ _ => rfl)

/-- Fixture for the C9 witness. -/
def depsC9 : Dependencies :=
  { packageJson := none, requirementsTxt := some "flask", pomXml := none,
    gemfile := none, goMod := none }

/-- C9: stack detection is deterministic — identical file lists and
identical manifest contents yield identical detection results; the
embedded detectProjectType is a pure function of exactly these two inputs
(the source reads no clock and no randomness). -/
theorem C9_detection_deterministic (files1 files2 : List String) (p1 p2 : Dependencies)
    (hf : files1 = files2) (hp : p1 = p2) :
    detectProjectType files1 p1 = detectProjectType files2 p2 := by
  rw [hf, hp]

/-- C9 witness: two runs on the same concrete flask project agree. -/
theorem C9_detection_witness :
    detectProjectType ["src/app.py"] depsC9 = detectProjectType ["src/app.py"] depsC9 :=
  C9_detection_deterministic _ _ _ _ rfl rfl

/- ===================== C2: partial-failure fallback ===================== -/

/-- Fixture for C2: a project structure with a frontend. -/
def psC2 : ProjectStructure :=
  { projectType := "frontend", frontend := some "react", backend := none, database := none,
    files := [],
    dependencies :=
      { packageJson := none, requirementsTxt := none, pomXml := none, gemfile := none,
        goMod := none },
    hasMultiStage := true, description := "", hasEnvFile := false, envVars := [] }

/-- Fixture for C2: a raw response whose dockerfile, yaml and untagged
blocks all extract to non-empty content, with no nginx block present. -/
def c2resp : String :=
  "```dockerfile\nFROM x\n```X```yaml\nservices:\n```X```text\nnode_modules\n```"

/-- C2 counterexample: for this frontend project and this response the
three main blocks extract non-empty and no nginx block is present, yet
parseResponse leaves the nginxConf slot unset instead of populating it
from the fallback nginx generator. -/
theorem C2_counterexample :
    strTruthy psC2.frontend = true ∧
    extractDockerfileBlock c2resp = some "FROM x" ∧
    extractComposeBlock c2resp = some "services:" ∧
    extractIgnoreBlock c2resp = some "node_modules" ∧
    extractNginxBlock c2resp = none ∧
    (parseResponse c2resp psC2).nginxConf = none := by decide

/-- C2 amended: when the dockerfile, yaml and untagged blocks all extract
to non-empty content and no nginx block is present, parseResponse returns
exactly the extracted contents and leaves nginxConf unset — the nginx
fallback only runs when one of the other three slots is empty. -/
theorem C2_amended_no_nginx_fallback (resp : String) (ps : ProjectStructure)
    (df dc di : String)
    (h1 : extractDockerfileBlock resp = some df) (h2 : df ≠ "")
    (h3 : extractComposeBlock resp = some dc) (h4 : dc ≠ "")
    (h5 : extractIgnoreBlock resp = some di) (h6 : di ≠ "")
    (h7 : extractNginxBlock resp = none) :
    parseResponse resp ps =
      { dockerfile := df, dockerCompose := dc, dockerIgnore := di, nginxConf := none } := by
  unfold parseResponse
  rw [h1, h3, h5, h7]
  simp only [Option.getD_some]
  rw [if_neg]
  simp [h2, h4, h6]

/-- C2 witness: the amended statement evaluated on the concrete response. -/
theorem C2_amended_witness :
    parseResponse c2resp psC2 =
      { dockerfile := "FROM x", dockerCompose := "services:",
        dockerIgnore := "node_modules", nginxConf := none } :=
  C2_amended_no_nginx_fallback c2resp psC2 "FROM x" "services:" "node_modules"
    (by decide) (by decide) (by decide) (by decide) (by decide) (by decide) (by decide)

/- ===================== C4: round-trip extraction ===================== -/

/-- A raw response in exactly the format mandated by createPrompt's FORMAT
section: dockerfile block, yaml block, untagged block and nginx block,
separated by blank lines. -/
def mandatedResponse (df y ig ng : String) : String :=
  "```dockerfile\n" ++ df ++ "\n```\n\n" ++ "```yaml\n" ++ y ++ "\n```\n\n" ++
  "```\n" ++ ig ++ "\n```\n\n" ++ "```nginx\n" ++ ng ++ "\n```"

/-- Fixture for C4. -/
def psC4 : ProjectStructure :=
  { projectType := "frontend", frontend := some "react", backend := none, database := none,
    files := [],
    dependencies :=
      { packageJson := none, requirementsTxt := none, pomXml := none, gemfile := none,
        goMod := none },
    hasMultiStage := true, description := "", hasEnvFile := false, envVars := [] }

/-- C4: evaluation of parseResponse at the failing input.  On a response in
the exact mandated format, the tagged blocks round-trip, but the untagged
pattern first matches at the closing fence of the dockerfile block
(capturing the empty string), so the exclusion-list slot does not receive
the untagged block's content "node_modules" — it is silently replaced by
the fallback template. -/
theorem C4_roundtrip_failure_eval :
    extractDockerfileBlock
      (mandatedResponse "FROM node" "services: a" "node_modules" "server x") =
        some "FROM node" ∧
    extractComposeBlock
      (mandatedResponse "FROM node" "services: a" "node_modules" "server x") =
        some "services: a" ∧
    extractNginxBlock
      (mandatedResponse "FROM node" "services: a" "node_modules" "server x") =
        some "server x" ∧
    extractIgnoreBlock
      (mandatedResponse "FROM node" "services: a" "node_modules" "server x") =
        some "" ∧
    (parseResponse (mandatedResponse "FROM node" "services: a" "node_modules" "server x")
        psC4).dockerIgnore = generateFallbackDockerignore ∧
    (parseResponse (mandatedResponse "FROM node" "services: a" "node_modules" "server x")
        psC4).dockerIgnore ≠ "node_modules" := by decide

/- ===================== C3: project category ===================== -/

theorem nodeBackendStage_type (pkg : PackageJson) (r : DetectResult) :
    (nodeBackendStage pkg r).type = r.type := by
  unfold nodeBackendStage
  split_ifs <;> rfl

theorem nodeDbStage_type (pkg : PackageJson) (r : DetectResult) :
    (nodeDbStage pkg r).type = r.type := by
  unfold nodeDbStage
  split_ifs <;> rfl

theorem nodeFrontendStage_type_of_no_meta (pkg : PackageJson) (r : DetectResult)
    (hn1 : depHas pkg "next" = false) (hn2 : depHas pkg "nuxt" = false) :
    (nodeFrontendStage pkg r).type = r.type := by
  unfold nodeFrontendStage
  rw [hn1, hn2]
  split_ifs <;> first | rfl | contradiction

theorem detectFinalStage_frontend (files : List String) (r : DetectResult) :
    (detectFinalStage files r).frontend = r.frontend := by
  unfold detectFinalStage
  split_ifs <;> rfl

theorem detectFinalStage_backend (files : List String) (r : DetectResult) :
    (detectFinalStage files r).backend = r.backend := by
  unfold detectFinalStage
  split_ifs <;> rfl

/-- Fixture for the C3 counterexample: package.json declaring react and a
requirements.txt declaring django. -/
def depsC3 : Dependencies :=
  { packageJson := some { dependencies := ["react"], devDependencies := [] },
    requirementsTxt := some "django", pomXml := none, gemfile := none, goMod := none }

/-- C3 counterexample: a project with both a detected frontend (react) and
a detected backend (django) is classified "backend", not "fullstack" — the
requirements.txt section forces the type regardless of frontend presence. -/
theorem C3_counterexample :
    strTruthy (detectProjectType [] depsC3).frontend = true ∧
    strTruthy (detectProjectType [] depsC3).backend = true ∧
    (detectProjectType [] depsC3).type = "backend" ∧
    (detectProjectType [] depsC3).type ≠ "fullstack" := by decide

/-- C3 amended: the presence-based classification is exact for the
LangChain path (fullstack / frontend-only / backend-only / api-only as
stated); for detectProjectType it holds only when no manifest section
forces the type — no requirements.txt, pom.xml or go.mod, and no next/nuxt
meta-framework dependency — and at least one framework was detected (with
neither detected, the residual comes from file-structure inference, not
api-only). -/
theorem C3_amended_category :
    (∀ d : StackDetection,
      (lcProjectType d = "fullstack" ↔ (lcHasFrontend d = true ∧ lcHasBackend d = true)) ∧
      (lcProjectType d = "frontend-only" ↔ (lcHasFrontend d = true ∧ lcHasBackend d = false)) ∧
      (lcProjectType d = "backend-only" ↔ (lcHasFrontend d = false ∧ lcHasBackend d = true)) ∧
      (lcProjectType d = "api-only" ↔ (lcHasFrontend d = false ∧ lcHasBackend d = false))) ∧
    (∀ (files : List String) (p : Dependencies),
      p.requirementsTxt = none → p.pomXml = none → p.goMod = none →
      (∀ pkg, p.packageJson = some pkg →
        depHas pkg "next" = false ∧ depHas pkg "nuxt" = false) →
      (strTruthy (detectProjectType files p).frontend = true ∨
        strTruthy (detectProjectType files p).backend = true) →
      ((detectProjectType files p).type = "fullstack" ↔
        (strTruthy (detectProjectType files p).frontend = true ∧
          strTruthy (detectProjectType files p).backend = true)) ∧
      ((detectProjectType files p).type = "frontend" ↔
        (strTruthy (detectProjectType files p).frontend = true ∧
          strTruthy (detectProjectType files p).backend = false)) ∧
      ((detectProjectType files p).type = "backend" ↔
        (strTruthy (detectProjectType files p).frontend = false ∧
          strTruthy (detectProjectType files p).backend = true))) := by
  constructor
  · intro d
    cases hf : lcHasFrontend d <;> cases hb : lcHasBackend d <;>
      simp [lcProjectType, hf, hb]
  · intro files p hreq hpom hgo hnn hsome
    have e1 : ∀ r, detectPythonStage p r = r := by
      intro r; unfold detectPythonStage; rw [hreq]
    have e2 : ∀ r, detectJavaStage p r = r := by
      intro r; unfold detectJavaStage; rw [hpom]
    have e3 : ∀ r, detectGoStage p r = r := by
      intro r; unfold detectGoStage; rw [hgo]
    have hdet : detectProjectType files p = detectFinalStage files (detectNodeStage p) := by
      unfold detectProjectType; rw [e1, e2, e3]
    have hunk : (detectNodeStage p).type = "unknown" := by
      unfold detectNodeStage
      cases hpj : p.packageJson with
      | none => rfl
      | some pkg =>
        obtain ⟨hn1, hn2⟩ := hnn pkg hpj
        dsimp only
        rw [nodeDbStage_type, nodeBackendStage_type,
          nodeFrontendStage_type_of_no_meta pkg _ hn1 hn2]
    rw [hdet, detectFinalStage_frontend, detectFinalStage_backend] at hsome ⊢
    cases hf : strTruthy (detectNodeStage p).frontend <;>
      cases hb : strTruthy (detectNodeStage p).backend
    · simp [hf, hb] at hsome
    · have htype : (detectFinalStage files (detectNodeStage p)).type = "backend" := by
        unfold detectFinalStage
        rw [hunk, hf, hb]
        simp
      rw [htype]
      simp
    · have htype : (detectFinalStage files (detectNodeStage p)).type = "frontend" := by
        unfold detectFinalStage
        rw [hunk, hf, hb]
        simp
      rw [htype]
      simp
    · have htype : (detectFinalStage files (detectNodeStage p)).type = "fullstack" := by
        unfold detectFinalStage
        rw [hunk, hf, hb]
        simp
      rw [htype]
      simp

/-- Fixture for the C3 witness: react + express, no type-forcing manifest. -/
def depsC3w : Dependencies :=
  { packageJson := some { dependencies := ["react", "express"], devDependencies := [] },
    requirementsTxt := none, pomXml := none, gemfile := none, goMod := none }

/-- C3 witness: a react + express project, with no type-forcing manifest,
is classified fullstack by the amended equivalence. -/
theorem C3_amended_witness : (detectProjectType [] depsC3w).type = "fullstack" :=
  ((C3_amended_category.2 [] depsC3w rfl rfl rfl
      (fun pkg h => by cases h; exact ⟨rfl, rfl⟩)
      (Or.inl (by decide))).1).mpr ⟨by decide, by decide⟩

/- ===================== C8: structured-mode validation ===================== -/

/-- Fixture for C8: a successfully decoded result whose three checked
slots all fail their sanity check. -/
def rC8 : LCResult :=
  { dockerfile := "x", docker_compose := "y", nginx_conf := "z",
    dockerignore := "ig", notes := "n" }

/-- C8 counterexample: the failing Dockerfile slot produces a warning, yet
its content is still returned verbatim in the files list — it is not left
for fallback substitution. -/
theorem C8_counterexample :
    strContains rC8.dockerfile "FROM" = false ∧
    (buildGeneratedFiles rC8).warnings =
      some ["Dockerfile may be incomplete - please review",
            "Docker Compose may be incomplete - please review",
            "Nginx configuration may be incomplete - please review"] ∧
    ("Dockerfile", "x") ∈ (buildGeneratedFiles rC8).files := by decide

/-- C8 amended: after a successful decode, a slot failing its sanity check
does not raise — a warning is recorded for it — but the slot's original
content is still returned in the files list; no fallback substitution
happens in structured mode. -/
theorem C8_amended_warn_but_return (r : LCResult) :
    (buildGeneratedFiles r).files =
      [("Dockerfile", r.dockerfile), ("docker-compose.yml", r.docker_compose),
       ("nginx.conf", r.nginx_conf), (".dockerignore", r.dockerignore),
       ("README-Docker.md", r.notes)] ∧
    (strContains r.dockerfile "FROM" = false →
      (buildGeneratedFiles r).warnings ≠ none ∧
      "Dockerfile may be incomplete - please review" ∈
        ((buildGeneratedFiles r).warnings.getD [])) ∧
    (strContains r.docker_compose "services:" = false →
      (buildGeneratedFiles r).warnings ≠ none ∧
      "Docker Compose may be incomplete - please review" ∈
        ((buildGeneratedFiles r).warnings.getD [])) ∧
    (strContains r.nginx_conf "server \x7b" = false →
      (buildGeneratedFiles r).warnings ≠ none ∧
      "Nginx configuration may be incomplete - please review" ∈
        ((buildGeneratedFiles r).warnings.getD [])) := by
  refine ⟨rfl, ?_, ?_, ?_⟩
  · intro h
    cases hc : strContains r.docker_compose "services:" <;>
      cases hn : strContains r.nginx_conf "server \x7b" <;>
      simp [buildGeneratedFiles, h, hc, hn]
  · intro h
    cases hd : strContains r.dockerfile "FROM" <;>
      cases hn : strContains r.nginx_conf "server \x7b" <;>
      simp [buildGeneratedFiles, h, hd, hn]
  · intro h
    cases hd : strContains r.dockerfile "FROM" <;>
      cases hc : strContains r.docker_compose "services:" <;>
      simp [buildGeneratedFiles, h, hd, hc]

/-- C8 witness: the amended statement evaluated at the concrete failing
decode. -/
theorem C8_amended_witness :
    (buildGeneratedFiles rC8).warnings ≠ none ∧
    "Dockerfile may be incomplete - please review" ∈
      ((buildGeneratedFiles rC8).warnings.getD []) :=
  (C8_amended_warn_but_return rC8).2.1 (by decide)
